import Mathlib

/-!
# Verification of the structured-output agent graph
  (`02-agent-structured-output.ipynb`)

A shallow embedding of the notebook's orchestration logic: the message data
model, the `WeatherResponse` schema, the `get_weather` tool, the two
`should_continue` routers, the two `respond` finalizers, and the compiled
graph loop for each strategy.  Values carried in tool-call arguments are
modelled as JSON-like values (numbers as rationals, strings); the external
LLM backend is modelled as an explicit function parameter, since it is an
out-of-scope collaborator of the core.
-/

/-- A JSON-like argument value: the notebook's tool-call arguments carry
numbers (`float` in the schema, idealized as `Rat`) and strings. -/
inductive Value where
  | num (q : Rat)
  | str (s : String)
deriving DecidableEq, Repr

/-- A tool call as carried on an assistant message:
`{id, name, args}` (langchain's `tool_calls` entries). -/
structure ToolCall where
  id : String
  name : String
  args : List (String × Value)
deriving DecidableEq, Repr

instance : Inhabited ToolCall := ⟨⟨"", "", []⟩⟩

/-- A conversation message: the tagged union of human turns, assistant turns
(with their ordered tool calls), and tool-result turns. -/
inductive Message where
  | human (text : String)
  | assistant (text : String) (tool_calls : List ToolCall)
  | toolResult (tool_call_id : String) (content : String)
deriving DecidableEq, Repr

/-- The textual content of a message (`.content` in langchain). -/
def Message.content : Message → String
  | .human t => t
  | .assistant t _ => t
  | .toolResult _ c => c

def Message.isAssistant : Message → Bool
  | .assistant _ _ => true
  | _ => false

/-- The fixed structured-output schema of the notebook.  The second field is
named `wind_directon` because that is, verbatim, the field name in the
source's `WeatherResponse(BaseModel)` declaration. -/
structure WeatherResponse where
  temperature : Rat
  wind_directon : String
  wind_speed : Rat
deriving DecidableEq, Repr

/-- The schema's field names, as declared in the source (note the
misspelled `wind_directon`). -/
def WeatherResponse.fieldNames : List String :=
  ["temperature", "wind_directon", "wind_speed"]

/-- Pydantic-style construction `WeatherResponse(**args)`: each required
field must be present with the right type, extra keys are ignored
(pydantic's default `extra='ignore'`); a missing or ill-typed required
field raises `ValidationError`, modelled as `none`.  (Pydantic's lax
string-to-number coercion is not modelled; no claim depends on it.) -/
def WeatherResponse.validate (args : List (String × Value)) : Option WeatherResponse :=
  match args.lookup "temperature", args.lookup "wind_directon", args.lookup "wind_speed" with
  | some (.num t), some (.str d), some (.num s) => some ⟨t, d, s⟩
  | _, _, _ => none

/-- The `get_weather` tool from the source: supported cities return a fixed
description, any other city raises `AssertionError("Unknown city")`,
modelled as `Except.error`. -/
def get_weather (city : String) : Except String String :=
  if city = "paris" then
    .ok "It is cloudy in Paris, with 5 mph winds in the North-East direction and a temperature of 70 degrees"
  else if city = "lille" then
    .ok "It is 65 degrees and raining in Lille, with 3 mph winds in the South-East direction"
  else if city = "marseille" then
    .ok "It is 75 degrees and sunny in Marseille, with 3 mph winds in the South-East direction"
  else
    .error "Unknown city"

/-- The graph state (`AgentState`): the message log plus the optional final
structured response. -/
structure AgentState where
  messages : List Message
  final_response : Option WeatherResponse
deriving DecidableEq, Repr

/-- Error taxonomy for a failed invocation (spec §7). -/
inductive AgentError where
  | structuredOutputError
  | unknownToolError (name : String)
  | toolArgumentError
  | toolExecutionError (msg : String)
deriving DecidableEq, Repr

/-- Modelled from the spec: the model backend contract (§6) — an external
collaborator, not part of src — as a deterministic function from the message
log to the produced assistant turn (text and tool calls). -/
def ModelFn := List Message → String × List ToolCall

/-- The `call_model` node (shared shape between both strategies): invoke the
model on the log and append its assistant message. -/
def call_model (model : ModelFn) (s : AgentState) : AgentState :=
  { s with messages := s.messages ++ [Message.assistant (model s.messages).1 (model s.messages).2] }

/-- Modelled from the spec: the Tool Executor's per-call step (§4.4;
`ToolNode` is library code, not in src).  The registry holds the single tool
`get_weather`; an unknown name fails, bad arguments fail, a raising tool
fails with `toolExecutionError`. -/
def execute_tool (name : String) (args : List (String × Value)) : Except AgentError String :=
  if name = "get_weather" then
    match args.lookup "city" with
    | some (.str c) =>
      match get_weather c with
      | .ok out => .ok out
      | .error e => .error (.toolExecutionError e)
    | _ => .error .toolArgumentError
  else
    .error (.unknownToolError name)

/-- Modelled from the spec: execute each tool call in order, producing one
`ToolResult` with the matching `tool_call_id` per call (§4.4). -/
def execute_all : List ToolCall → Except AgentError (List Message)
  | [] => .ok []
  | tc :: rest =>
    match execute_tool tc.name tc.args with
    | .ok out =>
      match execute_all rest with
      | .ok rs => .ok (Message.toolResult tc.id out :: rs)
      | .error e => .error e
    | .error e => .error e

/-- Modelled from the spec: the `tools` node — run every tool call of the
last assistant message and append all results before control returns (§4.4). -/
def tools_node (s : AgentState) : Except AgentError AgentState :=
  match s.messages.getLast? with
  | some (.assistant _ tcs) =>
    match execute_all tcs with
    | .ok rs => .ok { s with messages := s.messages ++ rs }
    | .error e => .error e
  | _ => .error .toolArgumentError

namespace Strategy1

/-- Strategy 1 router `should_continue`: reads `messages[-1]`; "respond" iff
the last assistant message has exactly one tool call and its name is
`"WeatherResponse"`.  `none` models the crash on a non-assistant last
message (never reached in the graph). -/
def should_continue (messages : List Message) : Option String :=
  match messages.getLast? with
  | some (.assistant _ tcs) =>
    some (if tcs.length = 1 ∧ (tcs.headD default).name = "WeatherResponse" then "respond" else "continue")
  | _ => none

/-- Strategy 1 `respond` node: take `messages[-1].tool_calls[0]`, build
`WeatherResponse(**args)` (validation failure aborts the invocation), and
append the synthesized tool message answering that tool call. -/
def respond (s : AgentState) : Except AgentError AgentState :=
  match s.messages.getLast? with
  | some (.assistant _ (tc :: _)) =>
    match WeatherResponse.validate tc.args with
    | some r =>
      .ok { messages := s.messages ++ [Message.toolResult tc.id "Here is your structured response"],
            final_response := some r }
    | none => .error .structuredOutputError
  | _ => .error .structuredOutputError

/-- The compiled strategy-1 graph: `agent → (router) → tools → agent | respond → END`,
with fuel standing in for the unbounded loop (`none` = fuel exhausted). -/
def loop (model : ModelFn) : Nat → AgentState → Option (Except AgentError AgentState)
  | 0, _ => none
  | fuel + 1, s =>
    let s1 := call_model model s
    if should_continue s1.messages = some "respond" then
      some (respond s1)
    else
      match tools_node s1 with
      | .ok s2 => loop model fuel s2
      | .error e => some (.error e)

/-- `graph.invoke` for strategy 1: seed the log with one human message. -/
def invoke (model : ModelFn) (fuel : Nat) (seed : String) : Option (Except AgentError AgentState) :=
  loop model fuel ⟨[Message.human seed], none⟩

end Strategy1

namespace Strategy2

/-- Strategy 2 router `should_continue`: "respond" iff the last assistant
message has no tool calls. -/
def should_continue (messages : List Message) : Option String :=
  match messages.getLast? with
  | some (.assistant _ tcs) =>
    some (if tcs = [] then "respond" else "continue")
  | _ => none

/-- `messages[-2]` with Python semantics: defined only when the list has at
least two elements. -/
def penultimate (l : List Message) : Option Message :=
  match l.reverse with
  | _ :: m :: _ => some m
  | _ => none

/-- The most recent `ToolResult` in a log, if any. -/
def lastToolResult (l : List Message) : Option Message :=
  l.reverse.find? (fun m =>
    match m with
    | .toolResult _ _ => true
    | _ => false)

/-- The exact message list handed to the schema-constrained model by the
strategy-2 `respond` node: the single `HumanMessage` built from
`state["messages"][-2].content`. -/
def respond_input (s : AgentState) : Option (List Message) :=
  (penultimate s.messages).map (fun m => [Message.human m.content])

/-- Modelled from the spec: `model.with_structured_output(WeatherResponse)`
— a schema-constrained backend call returning a parsed record or failing
(`StructuredOutputError`). -/
def StructuredModelFn := List Message → Option WeatherResponse

/-- Strategy 2 `respond` node: call the schema-constrained model on the
single human-framed message built from `messages[-2].content`, and set
`final_response`; the log is not touched. -/
def respond (smodel : StructuredModelFn) (s : AgentState) : Except AgentError AgentState :=
  match respond_input s with
  | some input =>
    match smodel input with
    | some r => .ok { s with final_response := some r }
    | none => .error .structuredOutputError
  | none => .error .structuredOutputError

/-- The compiled strategy-2 graph loop. -/
def loop (model : ModelFn) (smodel : StructuredModelFn) :
    Nat → AgentState → Option (Except AgentError AgentState)
  | 0, _ => none
  | fuel + 1, s =>
    let s1 := call_model model s
    if should_continue s1.messages = some "respond" then
      some (respond smodel s1)
    else
      match tools_node s1 with
      | .ok s2 => loop model smodel fuel s2
      | .error e => some (.error e)

/-- `graph.invoke` for strategy 2. -/
def invoke (model : ModelFn) (smodel : StructuredModelFn) (fuel : Nat) (seed : String) :
    Option (Except AgentError AgentState) :=
  loop model smodel fuel ⟨[Message.human seed], none⟩

end Strategy2

/-- Whether a message is the `ToolResult` answering the tool call with the
given identifier. -/
def isResultFor (id : String) : Message → Bool
  | .toolResult tid _ => tid == id
  | _ => false

/-- The messages following a point in the log, up to (excluding) the next
assistant message. -/
def resultsBefore (l : List Message) : List Message :=
  l.takeWhile (fun m => !m.isAssistant)

/-- The pairing invariant of spec §3: every tool call of every assistant
message is answered by exactly one `ToolResult` with the matching id before
the next assistant message. -/
def paired : List Message → Bool
  | [] => true
  | .assistant _ tcs :: rest =>
    tcs.all (fun tc => (resultsBefore rest).countP (isResultFor tc.id) == 1) && paired rest
  | _ :: rest => paired rest

/-- Modelled from the spec: a deterministic, temperature-zero model-backend
stub faithful to scenario A — first turn requests `get_weather("lille")`,
second turn emits the schema tool call extracted from the tool result. -/
def demoModel : ModelFn := fun msgs =>
  if msgs.length ≤ 1 then
    ("", [⟨"call_1", "get_weather", [("city", Value.str "lille")]⟩])
  else
    ("", [⟨"call_2", "WeatherResponse",
          [("temperature", Value.num 65), ("wind_directon", Value.str "SE"),
           ("wind_speed", Value.num 3)]⟩])

/-- Modelled from the spec: a model stub that requests the weather of an
unsupported city (scenario B). -/
def badModel : ModelFn := fun _ =>
  ("", [⟨"call_9", "get_weather", [("city", Value.str "lyon")]⟩])

/-- Modelled from the spec: a deterministic schema-constrained model stub. -/
def constSM : Strategy2.StructuredModelFn := fun _ => some ⟨65, "SE", 3⟩

/-- The final state of the scenario-A run of the strategy-1 graph under
`demoModel`. -/
def scenarioAFinal : AgentState :=
  ⟨[Message.human "what's the weather in Lille?",
    Message.assistant "" [⟨"call_1", "get_weather", [("city", Value.str "lille")]⟩],
    Message.toolResult "call_1"
      "It is 65 degrees and raining in Lille, with 3 mph winds in the South-East direction",
    Message.assistant "" [⟨"call_2", "WeatherResponse",
      [("temperature", Value.num 65), ("wind_directon", Value.str "SE"),
       ("wind_speed", Value.num 3)]⟩],
    Message.toolResult "call_2" "Here is your structured response"],
   some ⟨65, "SE", 3⟩⟩

/-- Schema-tool arguments carrying an unknown extra key `humidity`. -/
def extraArgs : List (String × Value) :=
  [("temperature", Value.num 65), ("wind_directon", Value.str "SE"),
   ("wind_speed", Value.num 3), ("humidity", Value.num 10)]

/-- A strategy-2 log in which the model answered without ever calling a
tool: the router still picks "respond". -/
def noToolLog : List Message :=
  [Message.human "what's the weather in Lille?", Message.assistant "It is sunny." []]

/-- A strategy-2 state about to be finalized after one tool round. -/
def s2state : AgentState :=
  ⟨[Message.human "q", Message.toolResult "c1" "out", Message.assistant "" []], none⟩

/-- The state produced by the strategy-2 finalizer on `s2state` under
`constSM`. -/
def s2stateAfter : AgentState :=
  ⟨[Message.human "q", Message.toolResult "c1" "out", Message.assistant "" []],
   some ⟨65, "SE", 3⟩⟩

/-- A strategy-1 state about to be finalized: the last assistant message
carries the sole schema tool call. -/
def s1state : AgentState :=
  ⟨[Message.human "q",
    Message.assistant "" [⟨"c2", "WeatherResponse",
      [("temperature", Value.num 65), ("wind_directon", Value.str "SE"),
       ("wind_speed", Value.num 3)]⟩]], none⟩

/-- The state produced by the strategy-1 finalizer on `s1state`. -/
def s1stateAfter : AgentState :=
  ⟨s1state.messages ++ [Message.toolResult "c2" "Here is your structured response"],
   some ⟨65, "SE", 3⟩⟩

/-! ## Helper lemmas -/

theorem should_continue1_concat (l : List Message) (t : String) (tcs : List ToolCall) :
    Strategy1.should_continue (l ++ [Message.assistant t tcs]) =
      some (if tcs.length = 1 ∧ (tcs.headD default).name = "WeatherResponse"
            then "respond" else "continue") := by
  unfold Strategy1.should_continue
  rw [List.getLast?_concat]

theorem should_continue2_concat (l : List Message) (t : String) (tcs : List ToolCall) :
    Strategy2.should_continue (l ++ [Message.assistant t tcs]) =
      some (if tcs = [] then "respond" else "continue") := by
  unfold Strategy2.should_continue
  rw [List.getLast?_concat]

theorem respond_cond_iff (tcs : List ToolCall) :
    (tcs.length = 1 ∧ (tcs.headD default).name = "WeatherResponse") ↔
      ∃ tc, tcs = [tc] ∧ tc.name = "WeatherResponse" := by
  constructor
  · rintro ⟨h1, h2⟩
    obtain ⟨a, rfl⟩ := List.length_eq_one.mp h1
    exact ⟨a, rfl, h2⟩
  · rintro ⟨tc, rfl, h⟩
    exact ⟨rfl, h⟩

theorem respond1_ok_shape (s s' : AgentState) (h : Strategy1.respond s = Except.ok s') :
    ∃ id r, s'.messages = s.messages ++ [Message.toolResult id "Here is your structured response"] ∧
      s'.final_response = some r := by
  unfold Strategy1.respond at h
  split at h
  · split at h
    · injection h with h
      subst h
      exact ⟨_, _, rfl, rfl⟩
    · cases h
  · cases h

theorem respond2_ok_shape (smodel : Strategy2.StructuredModelFn) (s s' : AgentState)
    (h : Strategy2.respond smodel s = Except.ok s') :
    s'.messages = s.messages ∧ ∃ r, s'.final_response = some r := by
  unfold Strategy2.respond at h
  split at h
  · split at h
    · injection h with h
      subst h
      exact ⟨rfl, _, rfl⟩
    · cases h
  · cases h

theorem resultsBefore_append_assistant (rest : List Message) (t : String)
    (tcs : List ToolCall) (rs : List Message) :
    resultsBefore (rest ++ Message.assistant t tcs :: rs) = resultsBefore rest := by
  induction rest with
  | nil => rfl
  | cons m rest ih =>
    cases m with
    | assistant t' tcs' => rfl
    | human s =>
      show Message.human s :: resultsBefore (rest ++ Message.assistant t tcs :: rs) =
        Message.human s :: resultsBefore rest
      exact congrArg _ ih
    | toolResult a b =>
      show Message.toolResult a b :: resultsBefore (rest ++ Message.assistant t tcs :: rs) =
        Message.toolResult a b :: resultsBefore rest
      exact congrArg _ ih

theorem paired_of_no_assistant (l : List Message)
    (h : ∀ m ∈ l, m.isAssistant = false) : paired l = true := by
  induction l with
  | nil => rfl
  | cons m rest ih =>
    cases m with
    | assistant t tcs =>
      exact absurd (h _ (List.mem_cons_self _ _)) (by simp [Message.isAssistant])
    | human s =>
      simp only [paired]
      exact ih (fun m hm => h m (List.mem_cons_of_mem _ hm))
    | toolResult a b =>
      simp only [paired]
      exact ih (fun m hm => h m (List.mem_cons_of_mem _ hm))

theorem paired_append_chunk (l : List Message) (t : String) (tcs : List ToolCall)
    (rs : List Message)
    (hp : paired l = true)
    (hrs : ∀ m ∈ rs, m.isAssistant = false)
    (hcount : ∀ tc ∈ tcs, rs.countP (isResultFor tc.id) = 1) :
    paired (l ++ Message.assistant t tcs :: rs) = true := by
  induction l with
  | nil =>
    simp only [List.nil_append, paired, Bool.and_eq_true, List.all_eq_true]
    constructor
    · intro tc htc
      have h1 : resultsBefore rs = rs :=
        List.takeWhile_eq_self_iff.mpr (by intro m hm; simp [hrs m hm])
      rw [h1]
      simpa using hcount tc htc
    · exact paired_of_no_assistant rs hrs
  | cons m l ih =>
    cases m with
    | assistant t' tcs' =>
      simp only [List.cons_append, List.append_eq, paired, Bool.and_eq_true,
        List.all_eq_true] at hp ⊢
      obtain ⟨hall, hrest⟩ := hp
      refine ⟨?_, ih hrest⟩
      intro tc htc
      rw [resultsBefore_append_assistant]
      exact hall tc htc
    | human s =>
      simp only [List.cons_append, paired] at hp ⊢
      exact ih hp
    | toolResult a b =>
      simp only [List.cons_append, paired] at hp ⊢
      exact ih hp

theorem execute_all_ok (tcs : List ToolCall) (rs : List Message)
    (h : execute_all tcs = Except.ok rs) :
    (∀ m ∈ rs, m.isAssistant = false) ∧
    ∀ id, rs.countP (isResultFor id) = (tcs.map ToolCall.id).count id := by
  induction tcs generalizing rs with
  | nil =>
    unfold execute_all at h
    injection h with h
    subst h
    exact ⟨(fun m hm => absurd hm (List.not_mem_nil m)), (fun id => rfl)⟩
  | cons tc rest ih =>
    unfold execute_all at h
    split at h
    · split at h
      · next rs' hrs' =>
        injection h with h
        subst h
        obtain ⟨h1, h2⟩ := ih rs' hrs'
        constructor
        · intro m hm
          rcases List.mem_cons.mp hm with rfl | hm
          · rfl
          · exact h1 m hm
        · intro id
          simp only [List.countP_cons, List.map_cons, List.count_cons, h2 id, isResultFor]
      · cases h
    · cases h

theorem call_model_eq (m : ModelFn) (s : AgentState) :
    call_model m s =
      ⟨s.messages ++ [Message.assistant (m s.messages).1 (m s.messages).2],
       s.final_response⟩ := rfl

theorem tools_node_concat_ok (l : List Message) (t : String) (tcs : List ToolCall)
    (fr : Option WeatherResponse) (rs : List Message) (h : execute_all tcs = .ok rs) :
    tools_node ⟨l ++ [Message.assistant t tcs], fr⟩ =
      .ok ⟨(l ++ [Message.assistant t tcs]) ++ rs, fr⟩ := by
  simp [tools_node, List.getLast?_concat, h]

theorem tools_node_concat_error (l : List Message) (t : String) (tcs : List ToolCall)
    (fr : Option WeatherResponse) (e : AgentError) (h : execute_all tcs = .error e) :
    tools_node ⟨l ++ [Message.assistant t tcs], fr⟩ = .error e := by
  simp [tools_node, List.getLast?_concat, h]

theorem respond1_concat_ok (l : List Message) (t : String) (tc : ToolCall)
    (rest : List ToolCall) (fr : Option WeatherResponse) (r : WeatherResponse)
    (h : WeatherResponse.validate tc.args = some r) :
    Strategy1.respond ⟨l ++ [Message.assistant t (tc :: rest)], fr⟩ =
      .ok ⟨(l ++ [Message.assistant t (tc :: rest)]) ++
        [Message.toolResult tc.id "Here is your structured response"], some r⟩ := by
  simp [Strategy1.respond, List.getLast?_concat, h]

theorem respond1_concat_none (l : List Message) (t : String) (tc : ToolCall)
    (rest : List ToolCall) (fr : Option WeatherResponse)
    (h : WeatherResponse.validate tc.args = none) :
    Strategy1.respond ⟨l ++ [Message.assistant t (tc :: rest)], fr⟩ =
      .error .structuredOutputError := by
  simp [Strategy1.respond, List.getLast?_concat, h]

theorem loop1_succ (m : ModelFn) (fuel : Nat) (s : AgentState) :
    Strategy1.loop m (fuel + 1) s =
      if Strategy1.should_continue (call_model m s).messages = some "respond" then
        some (Strategy1.respond (call_model m s))
      else
        match tools_node (call_model m s) with
        | .ok s2 => Strategy1.loop m fuel s2
        | .error e => some (.error e) := rfl

theorem loop1_succ_respond (m : ModelFn) (fuel : Nat) (s : AgentState)
    (hc : Strategy1.should_continue (call_model m s).messages = some "respond") :
    Strategy1.loop m (fuel + 1) s = some (Strategy1.respond (call_model m s)) := by
  rw [loop1_succ, if_pos hc]

theorem loop1_succ_continue_ok (m : ModelFn) (fuel : Nat) (s s2 : AgentState)
    (hc : ¬ Strategy1.should_continue (call_model m s).messages = some "respond")
    (he : tools_node (call_model m s) = .ok s2) :
    Strategy1.loop m (fuel + 1) s = Strategy1.loop m fuel s2 := by
  rw [loop1_succ, if_neg hc, he]

theorem loop1_succ_continue_error (m : ModelFn) (fuel : Nat) (s : AgentState) (e : AgentError)
    (hc : ¬ Strategy1.should_continue (call_model m s).messages = some "respond")
    (he : tools_node (call_model m s) = .error e) :
    Strategy1.loop m (fuel + 1) s = some (.error e) := by
  rw [loop1_succ, if_neg hc, he]

theorem loop1_paired (m : ModelFn) (hm : ∀ msgs, ((m msgs).2.map ToolCall.id).Nodup) :
    ∀ (fuel : Nat) (s s' : AgentState), paired s.messages = true →
      Strategy1.loop m fuel s = some (Except.ok s') → paired s'.messages = true := by
  intro fuel
  induction fuel with
  | zero =>
    intro s s' _ h
    cases h
  | succ fuel ih =>
    intro s s' hp h
    by_cases hcond : Strategy1.should_continue (call_model m s).messages = some "respond"
    · rw [loop1_succ_respond m fuel s hcond] at h
      injection h with h
      have hcond' := hcond
      simp only [call_model_eq] at hcond'
      rw [should_continue1_concat] at hcond'
      by_cases hc : (m s.messages).2.length = 1 ∧
          (((m s.messages).2).headD default).name = "WeatherResponse"
      · obtain ⟨tc, htc⟩ := List.length_eq_one.mp hc.1
        simp only [call_model_eq] at h
        rw [htc] at h
        cases hv : WeatherResponse.validate tc.args with
        | some r =>
          rw [respond1_concat_ok s.messages (m s.messages).1 tc [] s.final_response r hv] at h
          injection h with h
          subst h
          dsimp only
          rw [List.append_assoc]
          show paired (s.messages ++ (Message.assistant (m s.messages).1 [tc] ::
            [Message.toolResult tc.id "Here is your structured response"])) = true
          refine paired_append_chunk s.messages (m s.messages).1 [tc]
            [Message.toolResult tc.id "Here is your structured response"] hp ?_ ?_
          · intro m' hm'
            rw [List.mem_singleton] at hm'
            subst hm'
            rfl
          · intro tc' htc'
            rw [List.mem_singleton] at htc'
            subst htc'
            simp [List.countP_cons, isResultFor]
        | none =>
          rw [respond1_concat_none s.messages (m s.messages).1 tc [] s.final_response hv] at h
          cases h
      · rw [if_neg hc] at hcond'
        exact absurd hcond' (by decide)
    · cases he : tools_node (call_model m s) with
      | ok s2 =>
        rw [loop1_succ_continue_ok m fuel s s2 hcond he] at h
        have he' := he
        simp only [call_model_eq] at he'
        cases hex : execute_all (m s.messages).2 with
        | ok rs =>
          rw [tools_node_concat_ok s.messages (m s.messages).1 (m s.messages).2
            s.final_response rs hex] at he'
          injection he' with he'
          refine ih s2 s' ?_ h
          rw [← he']
          dsimp only
          rw [List.append_assoc]
          show paired (s.messages ++
            (Message.assistant (m s.messages).1 (m s.messages).2 :: rs)) = true
          refine paired_append_chunk s.messages (m s.messages).1 (m s.messages).2 rs hp
            (execute_all_ok _ _ hex).1 ?_
          intro tc htcmem
          rw [(execute_all_ok _ _ hex).2 tc.id]
          exact List.count_eq_one_of_mem (hm s.messages) (List.mem_map_of_mem ToolCall.id htcmem)
        | error e =>
          rw [tools_node_concat_error s.messages (m s.messages).1 (m s.messages).2
            s.final_response e hex] at he'
          cases he'
      | error e =>
        rw [loop1_succ_continue_error m fuel s e hcond he] at h
        injection h with h
        cases h

theorem loop2_succ (m : ModelFn) (smodel : Strategy2.StructuredModelFn)
    (fuel : Nat) (s : AgentState) :
    Strategy2.loop m smodel (fuel + 1) s =
      if Strategy2.should_continue (call_model m s).messages = some "respond" then
        some (Strategy2.respond smodel (call_model m s))
      else
        match tools_node (call_model m s) with
        | .ok s2 => Strategy2.loop m smodel fuel s2
        | .error e => some (.error e) := rfl

theorem loop2_succ_respond (m : ModelFn) (smodel : Strategy2.StructuredModelFn)
    (fuel : Nat) (s : AgentState)
    (hc : Strategy2.should_continue (call_model m s).messages = some "respond") :
    Strategy2.loop m smodel (fuel + 1) s =
      some (Strategy2.respond smodel (call_model m s)) := by
  rw [loop2_succ, if_pos hc]

theorem loop2_succ_continue_ok (m : ModelFn) (smodel : Strategy2.StructuredModelFn)
    (fuel : Nat) (s s2 : AgentState)
    (hc : ¬ Strategy2.should_continue (call_model m s).messages = some "respond")
    (he : tools_node (call_model m s) = .ok s2) :
    Strategy2.loop m smodel (fuel + 1) s = Strategy2.loop m smodel fuel s2 := by
  rw [loop2_succ, if_neg hc, he]

theorem loop2_succ_continue_error (m : ModelFn) (smodel : Strategy2.StructuredModelFn)
    (fuel : Nat) (s : AgentState) (e : AgentError)
    (hc : ¬ Strategy2.should_continue (call_model m s).messages = some "respond")
    (he : tools_node (call_model m s) = .error e) :
    Strategy2.loop m smodel (fuel + 1) s = some (.error e) := by
  rw [loop2_succ, if_neg hc, he]

theorem loop2_paired (m : ModelFn) (smodel : Strategy2.StructuredModelFn)
    (hm : ∀ msgs, ((m msgs).2.map ToolCall.id).Nodup) :
    ∀ (fuel : Nat) (s s' : AgentState), paired s.messages = true →
      Strategy2.loop m smodel fuel s = some (Except.ok s') → paired s'.messages = true := by
  intro fuel
  induction fuel with
  | zero =>
    intro s s' _ h
    cases h
  | succ fuel ih =>
    intro s s' hp h
    by_cases hcond : Strategy2.should_continue (call_model m s).messages = some "respond"
    · rw [loop2_succ_respond m smodel fuel s hcond] at h
      injection h with h
      have hcond' := hcond
      simp only [call_model_eq] at hcond'
      rw [should_continue2_concat] at hcond'
      by_cases hq : (m s.messages).2 = []
      · have hmsg := (respond2_ok_shape smodel (call_model m s) s' h).1
        rw [hmsg]
        simp only [call_model_eq]
        rw [hq]
        refine paired_append_chunk s.messages (m s.messages).1 [] [] hp ?_ ?_
        · intro m' hm'
          exact absurd hm' (List.not_mem_nil m')
        · intro tc htc
          exact absurd htc (List.not_mem_nil tc)
      · rw [if_neg hq] at hcond'
        exact absurd hcond' (by decide)
    · cases he : tools_node (call_model m s) with
      | ok s2 =>
        rw [loop2_succ_continue_ok m smodel fuel s s2 hcond he] at h
        have he' := he
        simp only [call_model_eq] at he'
        cases hex : execute_all (m s.messages).2 with
        | ok rs =>
          rw [tools_node_concat_ok s.messages (m s.messages).1 (m s.messages).2
            s.final_response rs hex] at he'
          injection he' with he'
          refine ih s2 s' ?_ h
          rw [← he']
          dsimp only
          rw [List.append_assoc]
          show paired (s.messages ++
            (Message.assistant (m s.messages).1 (m s.messages).2 :: rs)) = true
          refine paired_append_chunk s.messages (m s.messages).1 (m s.messages).2 rs hp
            (execute_all_ok _ _ hex).1 ?_
          intro tc htcmem
          rw [(execute_all_ok _ _ hex).2 tc.id]
          exact List.count_eq_one_of_mem (hm s.messages) (List.mem_map_of_mem ToolCall.id htcmem)
        | error e =>
          rw [tools_node_concat_error s.messages (m s.messages).1 (m s.messages).2
            s.final_response e hex] at he'
          cases he'
      | error e =>
        rw [loop2_succ_continue_error m smodel fuel s e hcond he] at h
        injection h with h
        cases h

/-! ## Claim theorems -/

/-- C1: the strategy-1 router selects the Finalizer ("respond") iff the last
assistant message carries exactly one tool call named `"WeatherResponse"`;
any other shape — including the schema call mixed with another call — routes
to the Tool Executor ("continue"); the decision depends only on the last
message, hence is independent of how many loop iterations preceded it. -/
theorem claim1_strategy1_router (msgs : List Message) (t : String) (tcs : List ToolCall) :
    (Strategy1.should_continue (msgs ++ [Message.assistant t tcs]) = some "respond" ↔
      ∃ tc, tcs = [tc] ∧ tc.name = "WeatherResponse") ∧
    (Strategy1.should_continue (msgs ++ [Message.assistant t tcs]) = some "continue" ↔
      ¬ ∃ tc, tcs = [tc] ∧ tc.name = "WeatherResponse") := by
  rw [should_continue1_concat, ← respond_cond_iff]
  by_cases hc : tcs.length = 1 ∧ (tcs.headD default).name = "WeatherResponse"
  · rw [if_pos hc]
    constructor
    · exact ⟨fun _ => hc, fun _ => rfl⟩
    · constructor
      · intro hh
        exact absurd hh (by decide)
      · intro hh
        exact absurd hc hh
  · rw [if_neg hc]
    constructor
    · constructor
      · intro hh
        exact absurd hh (by decide)
      · intro hh
        exact absurd hh hc
    · exact ⟨fun _ => hc, fun _ => rfl⟩

/-- C1 witness: a sole `WeatherResponse` tool call routes to "respond" after
a preceding conversation. -/
theorem claim1_witness :
    Strategy1.should_continue
      ([Message.human "q"] ++ [Message.assistant "" [⟨"c", "WeatherResponse", []⟩]]) =
      some "respond" :=
  (claim1_strategy1_router [Message.human "q"] "" [⟨"c", "WeatherResponse", []⟩]).1.mpr
    ⟨⟨"c", "WeatherResponse", []⟩, rfl, rfl⟩

/-- C2: the strategy-2 router selects the Finalizer iff the last assistant
message has zero tool calls, and the Tool Executor iff it has at least one. -/
theorem claim2_strategy2_router (msgs : List Message) (t : String) (tcs : List ToolCall) :
    (Strategy2.should_continue (msgs ++ [Message.assistant t tcs]) = some "respond" ↔
      tcs = []) ∧
    (Strategy2.should_continue (msgs ++ [Message.assistant t tcs]) = some "continue" ↔
      tcs ≠ []) := by
  rw [should_continue2_concat]
  by_cases hq : tcs = []
  · rw [if_pos hq]
    constructor
    · exact ⟨fun _ => hq, fun _ => rfl⟩
    · constructor
      · intro hh
        exact absurd hh (by decide)
      · intro hh
        exact absurd hq hh
  · rw [if_neg hq]
    constructor
    · constructor
      · intro hh
        exact absurd hh (by decide)
      · intro hh
        exact absurd hh hq
    · exact ⟨fun _ => hq, fun _ => rfl⟩

/-- C2 witness: a tool-calling assistant message routes to "continue". -/
theorem claim2_witness :
    Strategy2.should_continue
      ([Message.human "q"] ++ [Message.assistant "" [⟨"c", "get_weather", []⟩]]) =
      some "continue" :=
  (claim2_strategy2_router [Message.human "q"] "" [⟨"c", "get_weather", []⟩]).2.mpr
    (by decide)

/-- C3 counterexample: the claim "unknown fields rejected … or the
invocation fails" is false on the code — pydantic's default config ignores
extra keys, so schema-tool arguments carrying the unknown key `"humidity"`
still validate to a full record instead of failing. -/
theorem claim3_counterexample :
    WeatherResponse.validate extraArgs = some ⟨65, "SE", 3⟩ ∧
    "humidity" ∈ extraArgs.map Prod.fst ∧
    "humidity" ∉ WeatherResponse.fieldNames := by
  refine ⟨rfl, by decide, by decide⟩

/-- C3 (amended): the finalizer's validation succeeds exactly when all three
required fields are present with the right types, and the record carries
exactly those values (never a partially filled record); unknown fields are
ignored, not rejected.  Moreover a successful strategy-1 `respond` always
sets a (complete) `final_response`. -/
theorem claim3_validated_or_fail :
    (∀ (args : List (String × Value)) (r : WeatherResponse),
      WeatherResponse.validate args = some r ↔
        args.lookup "temperature" = some (Value.num r.temperature) ∧
        args.lookup "wind_directon" = some (Value.str r.wind_directon) ∧
        args.lookup "wind_speed" = some (Value.num r.wind_speed)) ∧
    (∀ s s' : AgentState, Strategy1.respond s = Except.ok s' →
      ∃ r, s'.final_response = some r) := by
  constructor
  · intro args r
    constructor
    · intro h
      unfold WeatherResponse.validate at h
      split at h
      · next t d sp h1 h2 h3 =>
        injection h with h
        subst h
        exact ⟨h1, h2, h3⟩
      · cases h
    · rintro ⟨h1, h2, h3⟩
      unfold WeatherResponse.validate
      rw [h1, h2, h3]
  · intro s s' h
    obtain ⟨id, r, _, hr⟩ := respond1_ok_shape s s' h
    exact ⟨r, hr⟩

/-- C3 witness: a concrete successful strategy-1 finalization sets a full
record. -/
theorem claim3_witness : ∃ r, s1stateAfter.final_response = some r :=
  claim3_validated_or_fail.2 s1state s1stateAfter rfl

/-- C10: the schema's wind-direction field is named `wind_directon`, the
correctly spelled `wind_direction` is not a schema field, and arguments that
lack the misspelled key (e.g. because they use the correct spelling) fail
validation rather than populating any `wind_direction` field. -/
theorem claim10_misspelled_field :
    "wind_directon" ∈ WeatherResponse.fieldNames ∧
    "wind_direction" ∉ WeatherResponse.fieldNames ∧
    ∀ args : List (String × Value), args.lookup "wind_directon" = none →
      WeatherResponse.validate args = none := by
  refine ⟨by decide, by decide, ?_⟩
  intro args h
  unfold WeatherResponse.validate
  split
  · next t d sp h1 h2 h3 =>
    rw [h] at h2
    cases h2
  · rfl

/-- C10 witness: arguments keyed with the correct spelling `wind_direction`
(so the misspelled required key is absent) are rejected. -/
theorem claim10_witness :
    "wind_directon" ∈ WeatherResponse.fieldNames ∧
    WeatherResponse.validate
      [("temperature", Value.num 65), ("wind_direction", Value.str "SE"),
       ("wind_speed", Value.num 3)] = none :=
  ⟨claim10_misspelled_field.1,
   claim10_misspelled_field.2.2
     [("temperature", Value.num 65), ("wind_direction", Value.str "SE"),
      ("wind_speed", Value.num 3)] rfl⟩

/-- C5 counterexample: the claim is false as stated — when the free-binding
model answers without ever requesting a tool, the router still picks
"respond", and the single message handed to the schema-constrained model is
built from the seed human message, while the log contains no `ToolResult`
at all. -/
theorem claim5_counterexample :
    Strategy2.should_continue noToolLog = some "respond" ∧
    Strategy2.respond_input ⟨noToolLog, none⟩ =
      some [Message.human "what's the weather in Lille?"] ∧
    Strategy2.respond_input ⟨noToolLog, none⟩ ≠
      (Strategy2.lastToolResult noToolLog).map (fun m => [Message.human m.content]) := by
  refine ⟨rfl, rfl, by decide⟩

/-- C5 (amended): the strategy-2 finalizer always hands the schema-constrained
model exactly one Human-framed message whose content is the content of the
second-to-last message of the log; whenever the last assistant turn was
immediately preceded by a `ToolResult`, that content is precisely the most
recent `ToolResult`'s content (not the full log). -/
theorem claim5_single_human_input :
    (∀ (s : AgentState) (l : List Message), Strategy2.respond_input s = some l →
      ∃ c, l = [Message.human c] ∧
        (Strategy2.penultimate s.messages).map Message.content = some c) ∧
    (∀ (l' : List Message) (id c t : String) (tcs : List ToolCall)
        (fr : Option WeatherResponse),
      Strategy2.respond_input
          ⟨l' ++ [Message.toolResult id c, Message.assistant t tcs], fr⟩ =
        some [Message.human c] ∧
      Strategy2.lastToolResult (l' ++ [Message.toolResult id c, Message.assistant t tcs]) =
        some (Message.toolResult id c)) := by
  constructor
  · intro s l h
    unfold Strategy2.respond_input at h
    rcases Option.map_eq_some'.mp h with ⟨m, hm, rfl⟩
    exact ⟨m.content, rfl, by rw [hm]; rfl⟩
  · intro l' id c t tcs fr
    constructor
    · show (Strategy2.penultimate _).map _ = _
      unfold Strategy2.penultimate
      rw [List.reverse_append]
      rfl
    · unfold Strategy2.lastToolResult
      rw [List.reverse_append]
      rfl

/-- C5 witness: a state finalized right after a tool round replays exactly
the tool result's content as the sole human message. -/
theorem claim5_witness :
    ∃ cc, [Message.human "out"] = [Message.human cc] ∧
      (Strategy2.penultimate s2state.messages).map Message.content = some cc :=
  claim5_single_human_input.1 s2state [Message.human "out"] rfl

/-- C9: the strategy-2 finalizer leaves the message log unchanged and only
sets `final_response`, whereas the strategy-1 finalizer appends exactly one
synthesized tool message. -/
theorem claim9_strategy2_frame (smodel : Strategy2.StructuredModelFn) (s s' : AgentState)
    (h : Strategy2.respond smodel s = Except.ok s') :
    s'.messages = s.messages ∧ s'.final_response ≠ none ∧
    ∀ s₁ s₁' : AgentState, Strategy1.respond s₁ = Except.ok s₁' →
      ∃ id, s₁'.messages =
        s₁.messages ++ [Message.toolResult id "Here is your structured response"] := by
  obtain ⟨hmsg, r, hr⟩ := respond2_ok_shape smodel s s' h
  refine ⟨hmsg, by rw [hr]; exact Option.some_ne_none r, ?_⟩
  intro s₁ s₁' h₁
  obtain ⟨id, r₁, hmsg₁, _⟩ := respond1_ok_shape s₁ s₁' h₁
  exact ⟨id, hmsg₁⟩

/-- C9 witness: a concrete strategy-2 finalization keeps the log intact. -/
theorem claim9_witness :
    s2stateAfter.messages = s2state.messages ∧ s2stateAfter.final_response ≠ none ∧
    ∀ s₁ s₁' : AgentState, Strategy1.respond s₁ = Except.ok s₁' →
      ∃ id, s₁'.messages =
        s₁.messages ++ [Message.toolResult id "Here is your structured response"] :=
  claim9_strategy2_frame constSM s2state s2stateAfter rfl

/-- C4: pairing invariant — under either strategy, if the graph terminates
successfully (with a backend whose tool-call ids are unique per turn, as the
spec's data model requires), every tool call of every assistant message in
the final log is answered by exactly one `ToolResult` with the matching id
before the next assistant message; in strategy 1 this includes the
never-executed schema-tool call, answered by the finalizer's synthesized
tool message. -/
theorem claim4_pairing (m : ModelFn) (smodel : Strategy2.StructuredModelFn)
    (hm : ∀ msgs, ((m msgs).2.map ToolCall.id).Nodup) (fuel : Nat) (seed : String) :
    (∀ s : AgentState, Strategy1.invoke m fuel seed = some (Except.ok s) →
      paired s.messages = true) ∧
    (∀ s : AgentState, Strategy2.invoke m smodel fuel seed = some (Except.ok s) →
      paired s.messages = true) := by
  constructor
  · intro s h
    exact loop1_paired m hm fuel ⟨[Message.human seed], none⟩ s rfl h
  · intro s h
    exact loop2_paired m smodel hm fuel ⟨[Message.human seed], none⟩ s rfl h

/-- C4 witness: the scenario-A final log (which ends with the synthesized
tool message answering the schema-tool call) is fully paired. -/
theorem claim4_witness : paired scenarioAFinal.messages = true :=
  (claim4_pairing demoModel constSM
    (by intro msgs; by_cases h : msgs.length ≤ 1 <;> simp [demoModel, h]) 3
    "what's the weather in Lille?").1 scenarioAFinal rfl

/-- C6: for every city outside {paris, lille, marseille}, `get_weather`
raises the assertion error "Unknown city"; a run whose first model turn
requests that city fails with `ToolExecutionError` and never produces a
structured record. -/
theorem claim6_unknown_city (city : String)
    (hcity : city ∉ (["paris", "lille", "marseille"] : List String))
    (m : ModelFn) (seed t id : String) (fuel : Nat)
    (hm : m [Message.human seed] = (t, [⟨id, "get_weather", [("city", Value.str city)]⟩])) :
    get_weather city = Except.error "Unknown city" ∧
    Strategy1.invoke m (fuel + 1) seed =
      some (Except.error (AgentError.toolExecutionError "Unknown city")) ∧
    ∀ s : AgentState, Strategy1.invoke m (fuel + 1) seed ≠ some (Except.ok s) := by
  simp only [List.mem_cons, List.not_mem_nil, or_false] at hcity
  push_neg at hcity
  obtain ⟨h1, h2, h3⟩ := hcity
  have hgw : get_weather city = Except.error "Unknown city" := by
    unfold get_weather
    rw [if_neg h1, if_neg h2, if_neg h3]
  have hexec : execute_all [⟨id, "get_weather", [("city", Value.str city)]⟩] =
      .error (.toolExecutionError "Unknown city") := by
    simp [execute_all, execute_tool, hgw]
  have hsc : Strategy1.should_continue
      (call_model m ⟨[Message.human seed], none⟩).messages = some "continue" := by
    simp only [call_model_eq]
    rw [hm]
    rw [should_continue1_concat]
    rw [if_neg (fun hcc =>
      absurd hcc.2 ((by decide : ¬("get_weather" = "WeatherResponse"))))]
  have htools : tools_node (call_model m ⟨[Message.human seed], none⟩) =
      .error (.toolExecutionError "Unknown city") := by
    simp only [call_model_eq]
    rw [hm]
    exact tools_node_concat_error [Message.human seed] t
      [⟨id, "get_weather", [("city", Value.str city)]⟩] none _ hexec
  have hinv : Strategy1.invoke m (fuel + 1) seed =
      some (Except.error (AgentError.toolExecutionError "Unknown city")) := by
    unfold Strategy1.invoke
    exact loop1_succ_continue_error m fuel ⟨[Message.human seed], none⟩ _
      (by rw [hsc]; decide) htools
  refine ⟨hgw, hinv, ?_⟩
  intro s heq
  rw [hinv] at heq
  exact absurd heq (by simp)

/-- C6 witness: the unsupported city "lyon" concretely aborts the run. -/
theorem claim6_witness :
    get_weather "lyon" = Except.error "Unknown city" ∧
    Strategy1.invoke badModel 1 "what's the weather in Lyon?" =
      some (Except.error (AgentError.toolExecutionError "Unknown city")) ∧
    ∀ s : AgentState, Strategy1.invoke badModel 1 "what's the weather in Lyon?" ≠
      some (Except.ok s) :=
  claim6_unknown_city "lyon" (by decide) badModel "what's the weather in Lyon?" ""
    "call_9" 0 rfl

/-- C7: scenario A — `get_weather "lille"` returns the description
mentioning 65 degrees, 3 mph and South-East wind, and the end-to-end
strategy-1 run on the seed "what's the weather in Lille?" under the
faithful deterministic backend stub finalizes the record
(temperature 65, wind_directon "SE", wind_speed 3). -/
theorem claim7_scenarioA :
    get_weather "lille" =
      Except.ok ("It is " ++ "65 degrees" ++ " and raining in Lille, with " ++ "3 mph" ++
        " winds in the " ++ "South-East" ++ " direction") ∧
    Strategy1.invoke demoModel 3 "what's the weather in Lille?" =
      some (Except.ok scenarioAFinal) ∧
    scenarioAFinal.final_response = some ⟨65, "SE", 3⟩ :=
  ⟨rfl, rfl, rfl⟩

/-- C8: determinism — with a fixed (deterministic, temperature-zero) model
stub and the deterministic tool, two invocations of the strategy-1 graph on
the same seed yield the same outcome, and in particular equal final
records. -/
theorem claim8_determinism (m : ModelFn) (fuel : Nat) (seed : String)
    (r₁ r₂ : Option (Except AgentError AgentState))
    (h₁ : Strategy1.invoke m fuel seed = r₁) (h₂ : Strategy1.invoke m fuel seed = r₂) :
    r₁ = r₂ ∧
    ∀ s₁ s₂ : AgentState, r₁ = some (Except.ok s₁) → r₂ = some (Except.ok s₂) →
      s₁.final_response = s₂.final_response := by
  subst h₁
  subst h₂
  refine ⟨rfl, ?_⟩
  intro s₁ s₂ e₁ e₂
  rw [e₁] at e₂
  injection e₂ with e₂
  injection e₂ with e₂
  rw [e₂]

/-- C8 witness: two scenario-A invocations agree byte for byte. -/
theorem claim8_witness :
    (some (Except.ok scenarioAFinal) : Option (Except AgentError AgentState)) =
      some (Except.ok scenarioAFinal) ∧
    ∀ s₁ s₂ : AgentState,
      (some (Except.ok scenarioAFinal) : Option (Except AgentError AgentState)) =
        some (Except.ok s₁) →
      (some (Except.ok scenarioAFinal) : Option (Except AgentError AgentState)) =
        some (Except.ok s₂) →
      s₁.final_response = s₂.final_response :=
  claim8_determinism demoModel 3 "what's the weather in Lille?" _ _ rfl rfl
